import Mathlib

set_option linter.all false

/-
Shallow embedding of the yt-dlp proxy service (src/ytdlp-service/app.py).

Modelling conventions:
  - A Python dict field that may be missing is an `Option`; `none` means the
    key is absent from the dict.  Values, when present, carry their natural
    type (strings for URL-like fields; numeric payloads that the code only
    copies verbatim are modelled as `Int`, their exact numeric type being
    irrelevant to every property below).
  - Python truthiness of an optional string (`if not hls_manifest:`) is
    `optTruthy`: `None` and `""` are falsy, every other string is truthy.
  - Python's substring operator `pat in s` is `pyIn pat s`.
  - Raw subscript access `info['key']` (which raises `KeyError` when the key
    is absent) is embedded in `Except String`, so the classifier's
    no-exception guarantee is a theorem rather than an artifact.
  - The HTTP endpoints are functions of the extraction outcome (the yt-dlp
    call is an external collaborator): success with a possibly-missing /
    empty record, a `DownloadError`, or any other exception.
-/

/-- Python substring test `pat in s` (literal substring, no parsing). -/
def pyIn (pat s : String) : Bool :=
  (List.range (s.length + 1)).any (fun i => (s.toList.drop i).take pat.length == pat.toList)

/-- Python `str.lower()` restricted to its ASCII action, which is all the
protocol strings involved exercise.  (Core's `String.toLower` is defined by
well-founded recursion and does not reduce inside the kernel, so the
character-list form is used.) -/
def pyLower (s : String) : String := String.mk (s.data.map Char.toLower)

/-- Python truthiness of an optional string: `None` and `""` are falsy. -/
def optTruthy : Option String → Bool
  | none => false
  | some s => !(s == "")

/-- One element of the raw `info['formats']` list (app.py line 151).
`none` = key absent from the format dict. -/
structure RawFormat where
  format_id : Option String := none
  ext : Option String := none
  quality : Option Int := none
  width : Option Int := none
  height : Option Int := none
  fps : Option Int := none
  vcodec : Option String := none
  acodec : Option String := none
  filesize : Option Int := none
  tbr : Option Int := none
  protocol : Option String := none
  url : Option String := none
  manifest_url : Option String := none
  resolution : Option String := none
  deriving DecidableEq, Repr

/-- The raw record returned by `ydl.extract_info` with the top-level keys the
service reads.  `none` = key absent. -/
structure RawVideoInfo where
  title : Option String := none
  duration : Option Int := none
  thumbnail : Option String := none
  uploader : Option String := none
  view_count : Option Int := none
  manifest_url : Option String := none
  url : Option String := none
  formats : Option (List RawFormat) := none
  deriving DecidableEq, Repr

/-- The per-format dict built at app.py lines 152-165, plus the `is_hls` /
`is_dash` keys conditionally inserted at lines 171 and 177.  A flag key that
the code never inserts is `none`. -/
structure FormatInfo where
  format_id : Option String
  ext : Option String
  quality : Option Int
  width : Option Int
  height : Option Int
  fps : Option Int
  vcodec : Option String
  acodec : Option String
  filesize : Option Int
  tbr : Option Int
  protocol : Option String
  url : Option String
  is_hls : Option Bool
  is_dash : Option Bool
  deriving DecidableEq, Repr

/-- HLS detection, app.py line 168:
`fmt.get('protocol') == 'm3u8_native' or fmt.get('ext') == 'm3u8'`. -/
def isHlsMatch (fmt : RawFormat) : Bool :=
  fmt.protocol == some "m3u8_native" || fmt.ext == some "m3u8"

/-- DASH detection, app.py line 174:
`'manifest_url' in fmt and 'dash' in fmt.get('protocol', '').lower()`. -/
def isDashMatch (fmt : RawFormat) : Bool :=
  fmt.manifest_url.isSome && pyIn "dash" (pyLower (fmt.protocol.getD ""))

/-- The `format_info` dict for one raw format: verbatim copies
(app.py lines 152-165) plus the flags set at lines 171 and 177. -/
def buildFormatInfo (fmt : RawFormat) : FormatInfo :=
  { format_id := fmt.format_id
    ext := fmt.ext
    quality := fmt.quality
    width := fmt.width
    height := fmt.height
    fps := fmt.fps
    vcodec := fmt.vcodec
    acodec := fmt.acodec
    filesize := fmt.filesize
    tbr := fmt.tbr
    protocol := fmt.protocol
    url := fmt.url
    is_hls := if isHlsMatch fmt then some true else none
    is_dash := if isDashMatch fmt then some true else none }

/-- Loop state of the per-format scan: `hls_manifest`, `dash_manifest`,
`formats_list` (app.py lines 145-147). -/
structure ScanState where
  hls : Option String
  dash : Option String
  fmts : List FormatInfo
  deriving DecidableEq, Repr

/-- One iteration of `for fmt in info['formats']` (app.py lines 151-179):
assign `hls_manifest = fmt.get('url')` when the format matches HLS and the
accumulator is still falsy (lines 168-170), likewise for DASH with
`fmt.get('manifest_url')` (lines 174-176), then append the descriptor. -/
def scanStep (st : ScanState) (fmt : RawFormat) : ScanState :=
  { hls := if isHlsMatch fmt && !(optTruthy st.hls) then fmt.url else st.hls
    dash := if isDashMatch fmt && !(optTruthy st.dash) then fmt.manifest_url else st.dash
    fmts := st.fmts ++ [buildFormatInfo fmt] }

/-- Initial state: `hls_manifest = None`, `dash_manifest = None`,
`formats_list = []`. -/
def initScan : ScanState := { hls := none, dash := none, fmts := [] }

/-- The whole per-format loop. -/
def scanFormats (fmts : List RawFormat) : ScanState :=
  fmts.foldl scanStep initScan

/-- One top-level fallback block (app.py lines 182-185 and 187-190):
`if not hls_manifest and '<key>' in info: v = info['<key>']; if 'm3u8' in v:
hls_manifest = v`.  The raw subscript `info['<key>']` is embedded with its
`KeyError` path. -/
def fallbackStep (hls field : Option String) : Except String (Option String) :=
  if !(optTruthy hls) && field.isSome then
    match field with
    | some v => Except.ok (if pyIn "m3u8" v then some v else hls)
    | none => Except.error "KeyError"
  else Except.ok hls

/-- State after the per-format loop: the loop body runs only under the
`if 'formats' in info` guard (app.py line 150), so an absent `formats` key
leaves the initial state untouched. -/
def scanStateOf (info : RawVideoInfo) : ScanState :=
  match info.formats with
  | some fs => scanFormats fs
  | none => initScan

/-- The manifest-classification step, app.py lines 144-190: the per-format
scan (guarded by `'formats' in info`) followed by the two top-level HLS
fallbacks.  Returns `(hls_manifest, dash_manifest, formats_list)`. -/
def classify (info : RawVideoInfo) :
    Except String (Option String × Option String × List FormatInfo) :=
  match fallbackStep (scanStateOf info).hls info.manifest_url with
  | Except.error e => Except.error e
  | Except.ok hls1 =>
    match fallbackStep hls1 info.url with
    | Except.error e => Except.error e
    | Except.ok hls2 => Except.ok (hls2, (scanStateOf info).dash, (scanStateOf info).fmts)

/-- The `VideoInfo` pydantic response model (app.py lines 41-51). -/
structure VideoInfo where
  video_id : String
  title : String
  duration : Option Int
  formats : List FormatInfo
  manifest_url : Option String
  hls_manifest_url : Option String
  dash_manifest_url : Option String
  thumbnail : Option String
  uploader : Option String
  view_count : Option Int
  deriving DecidableEq, Repr

/-- Response assembly, app.py lines 193-204. -/
def buildResponse (video_id : String) (info : RawVideoInfo) :
    Except String VideoInfo :=
  match classify info with
  | Except.error e => Except.error e
  | Except.ok (hls, dash, fmts) =>
    Except.ok
      { video_id := video_id
        title := info.title.getD "Unknown"
        duration := info.duration
        formats := fmts
        manifest_url := info.manifest_url
        hls_manifest_url := hls
        dash_manifest_url := dash
        thumbnail := info.thumbnail
        uploader := info.uploader
        view_count := info.view_count }

/-- Outcome of `await extract_info_async(video_id)` as seen by a handler:
the library returned (`ok`, possibly `None`), raised
`yt_dlp.utils.DownloadError`, or raised any other exception. -/
inductive ExtractOutcome where
  | ok (info : Option RawVideoInfo)
  | downloadError (msg : String)
  | otherError (msg : String)
  deriving DecidableEq, Repr

/-- Python `not info` for the extraction result: `None` or an empty dict
(every modelled key absent) is falsy. -/
def infoFalsy : Option RawVideoInfo → Bool
  | none => true
  | some i =>
    i.title.isNone && i.duration.isNone && i.thumbnail.isNone && i.uploader.isNone &&
    i.view_count.isNone && i.manifest_url.isNone && i.url.isNone && i.formats.isNone

/-- Exceptions that can escape the body of the `try` in
`extract_video_info`: the `HTTPException` raised at line 142, a
`DownloadError` propagating out of the extraction call, or anything else. -/
inductive PyExc where
  | httpException (status : Nat) (detail : String)
  | downloadError (msg : String)
  | otherError (msg : String)
  deriving DecidableEq, Repr

/-- Python `str(e)` for the exceptions above (starlette's `HTTPException`
stringifies as `"<status>: <detail>"`). -/
def pyExcStr : PyExc → String
  | PyExc.httpException s d => toString s ++ ": " ++ d
  | PyExc.downloadError m => m
  | PyExc.otherError m => m

/-- The body of the `try` block of `GET /api/extract/{video_id}`
(app.py lines 135-207): raise 404 when `not info` (line 141-142), else
classify and assemble the response.  A `DownloadError` or other exception
from the extraction call propagates. -/
def extractTryBody (video_id : String) (outcome : ExtractOutcome) :
    Except PyExc VideoInfo :=
  match outcome with
  | ExtractOutcome.downloadError m => Except.error (PyExc.downloadError m)
  | ExtractOutcome.otherError m => Except.error (PyExc.otherError m)
  | ExtractOutcome.ok info =>
    if infoFalsy info then
      Except.error (PyExc.httpException 404 "Video not found")
    else
      match info with
      | none => Except.error (PyExc.otherError "TypeError")
      | some i =>
        match buildResponse video_id i with
        | Except.error e => Except.error (PyExc.otherError e)
        | Except.ok v => Except.ok v

/-- Outward result of an endpoint: a 200 with a body, or an error status
with a detail string. -/
inductive EndpointResult where
  | success (v : VideoInfo)
  | failure (status : Nat) (detail : String)
  deriving DecidableEq, Repr

/-- HTTP status of an endpoint result. -/
def EndpointResult.status : EndpointResult → Nat
  | EndpointResult.success _ => 200
  | EndpointResult.failure s _ => s

/-- `GET /api/extract/{video_id}` (app.py lines 132-214).  The two `except`
clauses: `yt_dlp.utils.DownloadError` maps to a 404 with `str(e)`; every
other exception — `HTTPException` included, since FastAPI's `HTTPException`
is an `Exception` subclass and the raise at line 142 sits inside the `try` —
is caught by `except Exception` and re-raised as a 500 with `str(e)`. -/
def extract_video_info (video_id : String) (outcome : ExtractOutcome) :
    EndpointResult :=
  match extractTryBody video_id outcome with
  | Except.ok v => EndpointResult.success v
  | Except.error (PyExc.downloadError m) => EndpointResult.failure 404 m
  | Except.error e => EndpointResult.failure 500 (pyExcStr e)

/-- One entry of the `/api/formats` reduced field set (app.py lines 224-234). -/
structure FormatsEntry where
  format_id : Option String
  ext : Option String
  resolution : Option String
  fps : Option Int
  vcodec : Option String
  acodec : Option String
  filesize : Option Int
  tbr : Option Int
  protocol : Option String
  deriving DecidableEq, Repr

/-- Projection of a raw format to the reduced field set. -/
def formatsEntryOf (fmt : RawFormat) : FormatsEntry :=
  { format_id := fmt.format_id
    ext := fmt.ext
    resolution := fmt.resolution
    fps := fmt.fps
    vcodec := fmt.vcodec
    acodec := fmt.acodec
    filesize := fmt.filesize
    tbr := fmt.tbr
    protocol := fmt.protocol }

/-- Outward result of `GET /api/formats/{video_id}`. -/
inductive FormatsResult where
  | success (video_id : String) (formats : List FormatsEntry)
  | failure (status : Nat) (detail : String)
  deriving DecidableEq, Repr

/-- HTTP status of a formats result. -/
def FormatsResult.status : FormatsResult → Nat
  | FormatsResult.success _ _ => 200
  | FormatsResult.failure s _ => s

/-- `GET /api/formats/{video_id}` (app.py lines 216-243).  Its only handler
is `except Exception`, which maps every failure — `DownloadError` included —
to a 500.  When the library returns `None`, `info.get` raises
`AttributeError`, likewise caught as a 500. -/
def get_formats (video_id : String) (outcome : ExtractOutcome) :
    FormatsResult :=
  match outcome with
  | ExtractOutcome.downloadError m => FormatsResult.failure 500 m
  | ExtractOutcome.otherError m => FormatsResult.failure 500 m
  | ExtractOutcome.ok none =>
    FormatsResult.failure 500 "AttributeError: NoneType object has no attribute get"
  | ExtractOutcome.ok (some i) =>
    FormatsResult.success video_id ((i.formats.getD []).map formatsEntryOf)

/-- The HLS top-level fallback as the spec words it (claim C6): if the
top-level `manifest_url` contains `"m3u8"` use it, else if the top-level
`url` contains `"m3u8"` use it, else absent. -/
def hlsFallbackSpec (info : RawVideoInfo) : Option String :=
  match info.manifest_url with
  | some mu =>
    if pyIn "m3u8" mu then some mu
    else
      match info.url with
      | some u => if pyIn "m3u8" u then some u else none
      | none => none
  | none =>
    match info.url with
    | some u => if pyIn "m3u8" u then some u else none
    | none => none

/-- An accumulator that is already truthy is never overwritten by the rest
of the scan (HLS component). -/
lemma foldl_hls_truthy (fmts : List RawFormat) (st : ScanState)
    (h : optTruthy st.hls = true) :
    (List.foldl scanStep st fmts).hls = st.hls := by
  induction fmts generalizing st with
  | nil => rfl
  | cons f rest ih =>
    have hstep : (scanStep st f).hls = st.hls := by
      simp [scanStep, h]
    rw [List.foldl_cons, ih (scanStep st f) (by rw [hstep]; exact h), hstep]

/-- An accumulator that is already truthy is never overwritten by the rest
of the scan (DASH component). -/
lemma foldl_dash_truthy (fmts : List RawFormat) (st : ScanState)
    (h : optTruthy st.dash = true) :
    (List.foldl scanStep st fmts).dash = st.dash := by
  induction fmts generalizing st with
  | nil => rfl
  | cons f rest ih =>
    have hstep : (scanStep st f).dash = st.dash := by
      simp [scanStep, h]
    rw [List.foldl_cons, ih (scanStep st f) (by rw [hstep]; exact h), hstep]

/-- Starting from a falsy accumulator, the scan ends with the `url` of the
first HLS-matching format whose `url` is truthy, when such a format exists. -/
lemma foldl_hls_find (fmts : List RawFormat) (st : ScanState) (f : RawFormat)
    (hst : optTruthy st.hls = false)
    (hfind : fmts.find? (fun g => isHlsMatch g && optTruthy g.url) = some f) :
    (List.foldl scanStep st fmts).hls = f.url := by
  induction fmts generalizing st with
  | nil => simp at hfind
  | cons g rest ih =>
    cases hg : (isHlsMatch g && optTruthy g.url) with
    | true =>
      obtain rfl : g = f := by
        rw [List.find?_cons] at hfind
        simp only [hg] at hfind
        exact Option.some.inj hfind
      obtain ⟨hm, hu⟩ : isHlsMatch g = true ∧ optTruthy g.url = true := by
        simpa using hg
      have hstep : (scanStep st g).hls = g.url := by
        simp [scanStep, hm, hst]
      rw [List.foldl_cons, foldl_hls_truthy rest _ (by rw [hstep]; exact hu), hstep]
    | false =>
      rw [List.find?_cons] at hfind
      simp only [hg] at hfind
      have hstep : optTruthy (scanStep st g).hls = false := by
        cases hm : isHlsMatch g with
        | true =>
          have hu : optTruthy g.url = false := by
            cases hu2 : optTruthy g.url
            · rfl
            · rw [hm, hu2] at hg; exact absurd hg (by simp)
          simp [scanStep, hm, hst, hu]
        | false => simp [scanStep, hm, hst]
      rw [List.foldl_cons]
      exact ih (scanStep st g) hstep hfind

/-- Starting from a falsy accumulator, the scan ends with the
`manifest_url` of the first DASH-matching format whose `manifest_url` is
truthy, when such a format exists. -/
lemma foldl_dash_find (fmts : List RawFormat) (st : ScanState) (f : RawFormat)
    (hst : optTruthy st.dash = false)
    (hfind : fmts.find? (fun g => isDashMatch g && optTruthy g.manifest_url) = some f) :
    (List.foldl scanStep st fmts).dash = f.manifest_url := by
  induction fmts generalizing st with
  | nil => simp at hfind
  | cons g rest ih =>
    cases hg : (isDashMatch g && optTruthy g.manifest_url) with
    | true =>
      obtain rfl : g = f := by
        rw [List.find?_cons] at hfind
        simp only [hg] at hfind
        exact Option.some.inj hfind
      obtain ⟨hm, hu⟩ : isDashMatch g = true ∧ optTruthy g.manifest_url = true := by
        simpa using hg
      have hstep : (scanStep st g).dash = g.manifest_url := by
        simp [scanStep, hm, hst]
      rw [List.foldl_cons, foldl_dash_truthy rest _ (by rw [hstep]; exact hu), hstep]
    | false =>
      rw [List.find?_cons] at hfind
      simp only [hg] at hfind
      have hstep : optTruthy (scanStep st g).dash = false := by
        cases hm : isDashMatch g with
        | true =>
          have hu : optTruthy g.manifest_url = false := by
            cases hu2 : optTruthy g.manifest_url
            · rfl
            · rw [hm, hu2] at hg; exact absurd hg (by simp)
          simp [scanStep, hm, hst, hu]
        | false => simp [scanStep, hm, hst]
      rw [List.foldl_cons]
      exact ih (scanStep st g) hstep hfind

/-- When no format matches the HLS criterion, the scan leaves the HLS
accumulator untouched. -/
lemma foldl_hls_nomatch (fmts : List RawFormat) (st : ScanState)
    (h : ∀ f ∈ fmts, isHlsMatch f = false) :
    (List.foldl scanStep st fmts).hls = st.hls := by
  induction fmts generalizing st with
  | nil => rfl
  | cons g rest ih =>
    have hg : isHlsMatch g = false := h g (by simp)
    have hstep : (scanStep st g).hls = st.hls := by simp [scanStep, hg]
    rw [List.foldl_cons, ih (scanStep st g) (fun f hf => h f (by simp [hf])), hstep]

/-- When no format matches the DASH criterion, the scan leaves the DASH
accumulator untouched. -/
lemma foldl_dash_nomatch (fmts : List RawFormat) (st : ScanState)
    (h : ∀ f ∈ fmts, isDashMatch f = false) :
    (List.foldl scanStep st fmts).dash = st.dash := by
  induction fmts generalizing st with
  | nil => rfl
  | cons g rest ih =>
    have hg : isDashMatch g = false := h g (by simp)
    have hstep : (scanStep st g).dash = st.dash := by simp [scanStep, hg]
    rw [List.foldl_cons, ih (scanStep st g) (fun f hf => h f (by simp [hf])), hstep]

/-- The scan appends exactly one descriptor per raw format, in order. -/
lemma foldl_fmts (fmts : List RawFormat) (st : ScanState) :
    (List.foldl scanStep st fmts).fmts = st.fmts ++ fmts.map buildFormatInfo := by
  induction fmts generalizing st with
  | nil => simp
  | cons g rest ih =>
    rw [List.foldl_cons, ih (scanStep st g)]
    simp [scanStep]

/-- The loop-guard match equals a `getD` over the optional formats list. -/
lemma scanStateOf_getD (info : RawVideoInfo) :
    scanStateOf info = scanFormats (info.formats.getD []) := by
  cases h : info.formats <;> simp [scanStateOf, h, scanFormats]

/-- A truthy accumulator short-circuits a fallback block. -/
lemma fallbackStep_of_truthy (hls field : Option String)
    (h : optTruthy hls = true) :
    fallbackStep hls field = Except.ok hls := by
  simp [fallbackStep, h]

/-- A fallback block never raises: the raw `info['<key>']` access is guarded
by `'<key>' in info`. -/
lemma fallbackStep_ok (hls field : Option String) :
    ∃ r, fallbackStep hls field = Except.ok r := by
  cases field with
  | none => exact ⟨hls, by simp [fallbackStep]⟩
  | some v =>
    cases h : optTruthy hls with
    | true => exact ⟨hls, fallbackStep_of_truthy _ _ h⟩
    | false =>
      refine ⟨if pyIn "m3u8" v then some v else hls, ?_⟩
      simp [fallbackStep, h]

/-- The classifier always succeeds, and its DASH and descriptor components
come straight out of the scan. -/
lemma classify_components (info : RawVideoInfo) :
    ∃ hls, classify info
      = Except.ok (hls, (scanStateOf info).dash, (scanStateOf info).fmts) := by
  obtain ⟨h1, e1⟩ := fallbackStep_ok (scanStateOf info).hls info.manifest_url
  obtain ⟨h2, e2⟩ := fallbackStep_ok h1 info.url
  exact ⟨h2, by simp [classify, e1, e2]⟩

/-- When the scan already produced a truthy HLS URL, both fallbacks are
skipped and the classifier returns the scan state verbatim. -/
lemma classify_of_truthy (info : RawVideoInfo)
    (h : optTruthy (scanStateOf info).hls = true) :
    classify info = Except.ok
      ((scanStateOf info).hls, (scanStateOf info).dash, (scanStateOf info).fmts) := by
  simp [classify, fallbackStep_of_truthy _ _ h]

/-- A string containing `"m3u8"` is truthy. -/
lemma pyIn_m3u8_truthy (s : String) (h : pyIn "m3u8" s = true) :
    optTruthy (some s) = true := by
  by_cases hs : s = ""
  · subst hs; exact absurd h (by decide)
  · simp [optTruthy, hs]

/-- With a falsy HLS accumulator out of the scan, the two fallback blocks
compute exactly the spec-side fallback chain `hlsFallbackSpec`. -/
lemma classify_hls_none (info : RawVideoInfo)
    (h : (scanStateOf info).hls = none) :
    classify info = Except.ok
      (hlsFallbackSpec info, (scanStateOf info).dash, (scanStateOf info).fmts) := by
  cases hmu : info.manifest_url with
  | some mu =>
    cases hpin : pyIn "m3u8" mu with
    | true =>
      have e1 : fallbackStep (scanStateOf info).hls info.manifest_url
          = Except.ok (some mu) := by
        rw [h, hmu]; simp [fallbackStep, optTruthy, hpin]
      have e2 : fallbackStep (some mu) info.url = Except.ok (some mu) :=
        fallbackStep_of_truthy _ _ (pyIn_m3u8_truthy mu hpin)
      have hcl : classify info = Except.ok
          (some mu, (scanStateOf info).dash, (scanStateOf info).fmts) := by
        simp [classify, e1, e2]
      rw [hcl]
      simp [hlsFallbackSpec, hmu, hpin]
    | false =>
      have e1 : fallbackStep (scanStateOf info).hls info.manifest_url
          = Except.ok none := by
        rw [h, hmu]; simp [fallbackStep, optTruthy, hpin]
      cases hu : info.url with
      | some u =>
        have e2 : fallbackStep (none : Option String) info.url
            = Except.ok (if pyIn "m3u8" u then some u else none) := by
          rw [hu]; simp [fallbackStep, optTruthy]
        have hcl : classify info = Except.ok
            (if pyIn "m3u8" u then some u else none,
              (scanStateOf info).dash, (scanStateOf info).fmts) := by
          simp [classify, e1, e2]
        rw [hcl]
        simp [hlsFallbackSpec, hmu, hpin, hu]
      | none =>
        have e2 : fallbackStep (none : Option String) info.url
            = Except.ok none := by
          rw [hu]; simp [fallbackStep]
        have hcl : classify info = Except.ok
            (none, (scanStateOf info).dash, (scanStateOf info).fmts) := by
          simp [classify, e1, e2]
        rw [hcl]
        simp [hlsFallbackSpec, hmu, hpin, hu]
  | none =>
    have e1 : fallbackStep (scanStateOf info).hls info.manifest_url
        = Except.ok none := by
      rw [h, hmu]; simp [fallbackStep]
    cases hu : info.url with
    | some u =>
      have e2 : fallbackStep (none : Option String) info.url
          = Except.ok (if pyIn "m3u8" u then some u else none) := by
        rw [hu]; simp [fallbackStep, optTruthy]
      have hcl : classify info = Except.ok
          (if pyIn "m3u8" u then some u else none,
            (scanStateOf info).dash, (scanStateOf info).fmts) := by
        simp [classify, e1, e2]
      rw [hcl]
      simp [hlsFallbackSpec, hmu, hu]
    | none =>
      have e2 : fallbackStep (none : Option String) info.url
          = Except.ok none := by
        rw [hu]; simp [fallbackStep]
      have hcl : classify info = Except.ok
          (none, (scanStateOf info).dash, (scanStateOf info).fmts) := by
        simp [classify, e1, e2]
      rw [hcl]
      simp [hlsFallbackSpec, hmu, hu]

/-- First qualifying HLS format of the C1 counterexample: matches HLS but
its `url` key is absent. -/
def cxHlsFmtA : RawFormat := { protocol := some "m3u8_native" }

/-- Second qualifying HLS format of the C1 counterexample, with a url. -/
def cxHlsFmtB : RawFormat := { protocol := some "m3u8_native", url := some "b" }

/-- Raw info of the C1 counterexample. -/
def cxHlsInfo : RawVideoInfo := { formats := some [cxHlsFmtA, cxHlsFmtB] }

/-- C1 counterexample: the first qualifying format (protocol
`"m3u8_native"`) has no `url`, yet the extracted `hls_manifest_url` is the
second qualifying format's url `"b"`, not the first one's absent value: a
later qualifying format's url does take its place, because the
`if not hls_manifest` guard treats the assigned `None` as "still absent". -/
theorem c1_counterexample :
    (cxHlsInfo.formats.getD []).find? isHlsMatch = some cxHlsFmtA ∧
    cxHlsFmtA.url = none ∧
    ((buildResponse "vid" cxHlsInfo).toOption.map VideoInfo.hls_manifest_url)
      = some (some "b") := by
  decide

/-- C1 (amended): when some qualifying format (protocol `"m3u8_native"` or
ext `"m3u8"`) has a present, non-empty `url`, the extracted
`hls_manifest_url` is the `url` of the first such format; qualifying
formats whose url is absent or empty do not latch the assignment. -/
theorem c1_hls_first_truthy_url (vid : String) (info : RawVideoInfo)
    (fmts : List RawFormat) (f : RawFormat) (v : VideoInfo)
    (hfmts : info.formats = some fmts)
    (hfind : fmts.find? (fun g => isHlsMatch g && optTruthy g.url) = some f)
    (hresp : buildResponse vid info = Except.ok v) :
    v.hls_manifest_url = f.url := by
  have hturl : optTruthy f.url = true := by
    have hpred := List.find?_some hfind
    simp at hpred
    exact hpred.2
  have hsc : scanStateOf info = scanFormats fmts := by
    simp [scanStateOf, hfmts]
  have hscan : (scanStateOf info).hls = f.url := by
    rw [hsc]
    exact foldl_hls_find fmts initScan f rfl hfind
  have hcl := classify_of_truthy info (by rw [hscan]; exact hturl)
  simp [buildResponse, hcl] at hresp
  subst hresp
  exact hscan

/-- Concrete format for the C1 witness. -/
def wHlsFmt : RawFormat := { protocol := some "m3u8_native", url := some "https://h/v.m3u8" }

/-- Concrete raw info for the C1 witness. -/
def wHlsInfo : RawVideoInfo := { formats := some [wHlsFmt] }

/-- Concrete response for the C1 witness. -/
def wHlsResp : VideoInfo :=
  { video_id := "vid", title := "Unknown", duration := none
    formats := [buildFormatInfo wHlsFmt], manifest_url := none
    hls_manifest_url := some "https://h/v.m3u8", dash_manifest_url := none
    thumbnail := none, uploader := none, view_count := none }

/-- C1 witness: the amended theorem applied at a concrete input. -/
theorem c1_witness : wHlsResp.hls_manifest_url = wHlsFmt.url :=
  c1_hls_first_truthy_url "vid" wHlsInfo [wHlsFmt] wHlsFmt wHlsResp rfl
    (by decide) (by rfl)

/-- C2: the manifest-classification step never raises, for every
combination of absent fields on the record and its formats: the guarded raw
accesses never reach their `KeyError` branch, and every other access uses a
defaulting `.get`. -/
theorem c2_classifier_never_raises (info : RawVideoInfo) :
    ∃ r, classify info = Except.ok r := by
  obtain ⟨hls, h⟩ := classify_components info
  exact ⟨_, h⟩

/-- C3: when extraction yields no result (`None` or an empty record), the
endpoint answers 500, not the 404 the code intends: the
`HTTPException(404)` raised at app.py line 142 is an `Exception` subclass,
so the `except Exception` clause at line 212 swallows it and re-raises a
500. -/
theorem c3_empty_result_maps_to_500 :
    (extract_video_info "vid" (ExtractOutcome.ok none)).status = 500 ∧
    (extract_video_info "vid" (ExtractOutcome.ok (some ({} : RawVideoInfo)))).status = 500 := by
  decide

/-- First format of the C4 counterexample: qualifies for HLS and carries
the non-null (but empty, hence falsy) url `""`. -/
def cxOvFmtA : RawFormat := { protocol := some "m3u8_native", url := some "" }

/-- Second format of the C4 counterexample. -/
def cxOvFmtB : RawFormat := { protocol := some "m3u8_native", url := some "b" }

/-- C4 counterexample: after the first format the HLS accumulator holds the
non-null value `""`, and the later candidate overwrites it: the guard is
Python truthiness, not an is-null test. -/
theorem c4_counterexample :
    (scanFormats [cxOvFmtA]).hls = some "" ∧
    (scanFormats [cxOvFmtA, cxOvFmtB]).hls = some "b" := by
  decide

/-- C4 (amended): once `hls_manifest` or `dash_manifest` holds a truthy
(non-null, non-empty) value during the per-format scan, no later candidate
format overwrites it; a null or empty-string value can still be replaced. -/
theorem c4_truthy_never_overwritten (st : ScanState) (fmts : List RawFormat) :
    (optTruthy st.hls = true → (List.foldl scanStep st fmts).hls = st.hls) ∧
    (optTruthy st.dash = true → (List.foldl scanStep st fmts).dash = st.dash) :=
  ⟨fun h => foldl_hls_truthy fmts st h, fun h => foldl_dash_truthy fmts st h⟩

/-- C4 witness: the amended theorem applied at a concrete scan state. -/
theorem c4_witness :
    (List.foldl scanStep { hls := some "x", dash := some "y", fmts := [] } [cxOvFmtB]).hls = some "x" ∧
    (List.foldl scanStep { hls := some "x", dash := some "y", fmts := [] } [cxOvFmtB]).dash = some "y" :=
  ⟨(c4_truthy_never_overwritten { hls := some "x", dash := some "y", fmts := [] } [cxOvFmtB]).1 (by decide),
   (c4_truthy_never_overwritten { hls := some "x", dash := some "y", fmts := [] } [cxOvFmtB]).2 (by decide)⟩

/-- First DASH-matching format of the C5 counterexample: `manifest_url` is
present (the empty string) and the protocol contains `"dash"`. -/
def cxDashFmtA : RawFormat := { protocol := some "dash", manifest_url := some "" }

/-- Second DASH-matching format of the C5 counterexample. -/
def cxDashFmtB : RawFormat := { protocol := some "dash", manifest_url := some "https://x/d.mpd" }

/-- Raw info of the C5 counterexample. -/
def cxDashInfo : RawVideoInfo := { formats := some [cxDashFmtA, cxDashFmtB] }

/-- C5 counterexample: the first format matching the DASH criteria has
`manifest_url` present (`""`), but the extracted `dash_manifest_url` is the
second match's value: the empty string does not latch the `if not
dash_manifest` guard. -/
theorem c5_counterexample :
    (cxDashInfo.formats.getD []).find? isDashMatch = some cxDashFmtA ∧
    cxDashFmtA.manifest_url = some "" ∧
    ((buildResponse "vid" cxDashInfo).toOption.map VideoInfo.dash_manifest_url)
      = some (some "https://x/d.mpd") := by
  decide

/-- C5 (amended): `dash_manifest_url` equals the `manifest_url` of the
first format that matches the DASH criteria with a non-empty
`manifest_url` (matches whose value is empty do not latch), and it is
absent when no format matches at all — there is no DASH fallback. -/
theorem c5_dash_first_truthy_manifest (vid : String) (info : RawVideoInfo)
    (v : VideoInfo)
    (hresp : buildResponse vid info = Except.ok v) :
    (∀ f, (info.formats.getD []).find?
        (fun g => isDashMatch g && optTruthy g.manifest_url) = some f →
      v.dash_manifest_url = f.manifest_url) ∧
    ((∀ f ∈ info.formats.getD [], isDashMatch f = false) →
      v.dash_manifest_url = none) := by
  obtain ⟨hls, hcl⟩ := classify_components info
  simp [buildResponse, hcl] at hresp
  subst hresp
  constructor
  · intro f hfind
    show (scanStateOf info).dash = f.manifest_url
    rw [scanStateOf_getD]
    exact foldl_dash_find _ initScan f rfl hfind
  · intro hnm
    show (scanStateOf info).dash = none
    rw [scanStateOf_getD]
    exact foldl_dash_nomatch _ initScan hnm

/-- Concrete DASH format for the C5 witness. -/
def wDashFmt : RawFormat :=
  { protocol := some "https+DASH", manifest_url := some "https://x/manifest.mpd" }

/-- Concrete raw info for the C5 witness. -/
def wDashInfo : RawVideoInfo := { formats := some [wDashFmt] }

/-- Concrete response for the C5 witness. -/
def wDashResp : VideoInfo :=
  { video_id := "vid", title := "Unknown", duration := none
    formats := [buildFormatInfo wDashFmt], manifest_url := none
    hls_manifest_url := none, dash_manifest_url := some "https://x/manifest.mpd"
    thumbnail := none, uploader := none, view_count := none }

/-- C5 witness: the amended theorem applied at a concrete input (also
exercising the case-insensitive protocol match). -/
theorem c5_witness : wDashResp.dash_manifest_url = wDashFmt.manifest_url :=
  (c5_dash_first_truthy_manifest "vid" wDashInfo wDashResp (by rfl)).1 wDashFmt
    (by decide)

/-- C6: with no format matching the HLS criteria, `hls_manifest_url` is the
top-level `manifest_url` when it contains `"m3u8"`, else the top-level
`url` when it contains `"m3u8"`, else absent. -/
theorem c6_hls_fallback (vid : String) (info : RawVideoInfo) (v : VideoInfo)
    (hnm : ∀ f ∈ info.formats.getD [], isHlsMatch f = false)
    (hresp : buildResponse vid info = Except.ok v) :
    v.hls_manifest_url = hlsFallbackSpec info := by
  have hstnone : (scanStateOf info).hls = none := by
    rw [scanStateOf_getD]
    exact foldl_hls_nomatch _ initScan hnm
  have hcl := classify_hls_none info hstnone
  simp [buildResponse, hcl] at hresp
  subst hresp
  rfl

/-- Concrete raw info for the C6 witness. -/
def wFbInfo : RawVideoInfo := { manifest_url := some "https://x/master.m3u8" }

/-- Concrete response for the C6 witness. -/
def wFbResp : VideoInfo :=
  { video_id := "vid", title := "Unknown", duration := none
    formats := [], manifest_url := some "https://x/master.m3u8"
    hls_manifest_url := some "https://x/master.m3u8", dash_manifest_url := none
    thumbnail := none, uploader := none, view_count := none }

/-- C6 witness: the theorem applied at a concrete input whose top-level
`manifest_url` contains `"m3u8"`. -/
theorem c6_witness : wFbResp.hls_manifest_url = hlsFallbackSpec wFbInfo :=
  c6_hls_fallback "vid" wFbInfo wFbResp (by decide) (by rfl)

/-- C7: a `DownloadError` from the extraction library maps to a 404 whose
body is the error message; any other exception from extraction or response
assembly maps to a 500. -/
theorem c7_extract_error_mapping :
    (∀ (vid m : String),
      extract_video_info vid (ExtractOutcome.downloadError m)
        = EndpointResult.failure 404 m) ∧
    (∀ (vid m : String),
      extract_video_info vid (ExtractOutcome.otherError m)
        = EndpointResult.failure 500 m) := by
  exact ⟨fun vid m => rfl, fun vid m => rfl⟩

/-- C8 counterexample: a download-class failure on `/api/formats` yields a
500, not the 404 the global taxonomy promises — `get_formats` has no
`DownloadError` handler, only `except Exception`. -/
theorem c8_counterexample :
    (get_formats "deadbeef" (ExtractOutcome.downloadError "ERROR: Video unavailable")).status = 500 ∧
    ¬ (get_formats "deadbeef" (ExtractOutcome.downloadError "ERROR: Video unavailable")).status = 404 := by
  decide

/-- C8 (amended): on `GET /api/formats/{video_id}` a download-class
extraction failure is handled by the endpoint's only handler,
`except Exception`, and maps outward to a 500 like every other failure; the
NotFound-to-404 mapping exists only on `/api/extract`. -/
theorem c8_formats_download_error_maps_500 :
    ∀ (vid m : String),
      get_formats vid (ExtractOutcome.downloadError m)
        = FormatsResult.failure 500 m := by
  exact fun vid m => rfl

/-- Raw info of the C9 counterexample: `title` present with value
`"Unknown"`. -/
def cxTitleInfo : RawVideoInfo := { title := some "Unknown" }

/-- C9 counterexample: the response title equals the string Unknown
although the `title` field is present, refuting the claim that it equals
that string exactly when the field is missing. -/
theorem c9_counterexample :
    cxTitleInfo.title ≠ none ∧
    ((buildResponse "vid" cxTitleInfo).toOption.map VideoInfo.title)
      = some "Unknown" := by
  decide

/-- C9 (amended): the response title is the raw title whenever the field is
present (the empty string included) and `"Unknown"` when the field is
missing; the other nullable response fields are exact passthroughs with no
default. -/
theorem c9_title_default_only_when_missing (vid : String)
    (info : RawVideoInfo) (v : VideoInfo)
    (hresp : buildResponse vid info = Except.ok v) :
    (info.title = none → v.title = "Unknown") ∧
    (∀ s, info.title = some s → v.title = s) ∧
    v.duration = info.duration ∧ v.manifest_url = info.manifest_url ∧
    v.thumbnail = info.thumbnail ∧ v.uploader = info.uploader ∧
    v.view_count = info.view_count := by
  obtain ⟨hls, hcl⟩ := classify_components info
  simp [buildResponse, hcl] at hresp
  subst hresp
  refine ⟨fun h => by simp [h], fun s h => by simp [h], rfl, rfl, rfl, rfl, rfl⟩

/-- Concrete raw info for the C9 witness: no `title` key. -/
def wTitleInfo : RawVideoInfo := { duration := some 12 }

/-- Concrete response for the C9 witness. -/
def wTitleResp : VideoInfo :=
  { video_id := "vid", title := "Unknown", duration := some 12
    formats := [], manifest_url := none
    hls_manifest_url := none, dash_manifest_url := none
    thumbnail := none, uploader := none, view_count := none }

/-- C9 witness: the amended theorem applied at a concrete input with a
missing title. -/
theorem c9_witness : wTitleResp.title = "Unknown" :=
  (c9_title_default_only_when_missing "vid" wTitleInfo wTitleResp (by rfl)).1 rfl

/-- C10: the response's format descriptors are exactly the per-format
projections, and a descriptor carries `is_hls` (value `true`) precisely
when the raw format matched the HLS criterion, `is_dash` precisely on the
DASH criterion; neither flag is ever present with value `false`. -/
theorem c10_flags_present_iff_match (vid : String) (info : RawVideoInfo)
    (v : VideoInfo)
    (hresp : buildResponse vid info = Except.ok v) :
    v.formats = (info.formats.getD []).map buildFormatInfo ∧
    ∀ f : RawFormat,
      ((buildFormatInfo f).is_hls = some true ↔
        (f.protocol = some "m3u8_native" ∨ f.ext = some "m3u8")) ∧
      (buildFormatInfo f).is_hls ≠ some false ∧
      ((buildFormatInfo f).is_dash = some true ↔
        (f.manifest_url.isSome = true ∧
          pyIn "dash" (pyLower (f.protocol.getD "")) = true)) ∧
      (buildFormatInfo f).is_dash ≠ some false := by
  constructor
  · obtain ⟨hls, hcl⟩ := classify_components info
    simp [buildResponse, hcl] at hresp
    subst hresp
    show (scanStateOf info).fmts = _
    rw [scanStateOf_getD, scanFormats, foldl_fmts]
    rfl
  · intro f
    refine ⟨?_, ?_, ?_, ?_⟩
    · cases h : isHlsMatch f with
      | true =>
        have hp : f.protocol = some "m3u8_native" ∨ f.ext = some "m3u8" := by
          simpa [isHlsMatch] using h
        simp [buildFormatInfo, h, hp]
      | false =>
        have hp : ¬(f.protocol = some "m3u8_native" ∨ f.ext = some "m3u8") := by
          simpa [isHlsMatch, not_or] using h
        simp [buildFormatInfo, h, hp]
    · cases h : isHlsMatch f <;> simp [buildFormatInfo, h]
    · cases h : isDashMatch f with
      | true =>
        have hp : f.manifest_url.isSome = true ∧
            pyIn "dash" (pyLower (f.protocol.getD "")) = true := by
          simpa [isDashMatch] using h
        simp [buildFormatInfo, h, hp]
      | false =>
        have hp : ¬(f.manifest_url.isSome = true ∧
            pyIn "dash" (pyLower (f.protocol.getD "")) = true) := by
          simpa [isDashMatch] using h
        simp [buildFormatInfo, h, hp]
    · cases h : isDashMatch f <;> simp [buildFormatInfo, h]

/-- Concrete format for the C10 witness. -/
def wFlagFmt : RawFormat := { protocol := some "m3u8_native" }

/-- Concrete raw info for the C10 witness. -/
def wFlagInfo : RawVideoInfo := { formats := some [wFlagFmt] }

/-- Concrete response for the C10 witness. -/
def wFlagResp : VideoInfo :=
  { video_id := "vid", title := "Unknown", duration := none
    formats := [buildFormatInfo wFlagFmt], manifest_url := none
    hls_manifest_url := none, dash_manifest_url := none
    thumbnail := none, uploader := none, view_count := none }

/-- C10 witness: the theorem applied at a concrete input. -/
theorem c10_witness :
    wFlagResp.formats = (wFlagInfo.formats.getD []).map buildFormatInfo ∧
    (buildFormatInfo wFlagFmt).is_hls = some true :=
  ⟨(c10_flags_present_iff_match "vid" wFlagInfo wFlagResp (by rfl)).1,
   ((c10_flags_present_iff_match "vid" wFlagInfo wFlagResp (by rfl)).2 wFlagFmt).1.mpr
     (Or.inl rfl)⟩
